import Mathlib

/-!
Verification of the Firefox launcher (`src/server/firefox.ts`).

The definitions below are a shallow embedding of `Firefox._launchServer`,
`Firefox._defaultArgs`, `populateProfile` and the `DEFAULT_PREFERENCES`
table.  Code that the launcher calls but that lives outside this
repository snapshot (`launchProcess` / `waitForLine` from
`processLauncher.ts`) is modelled from the specification and marked as
such in its doc comment.
-/

/-- Boolean test that `p` is an initial segment of `l`
(embeds JavaScript `String.prototype.startsWith` restricted to the
character lists of the two strings). -/
def listStarts : List Char → List Char → Bool
  | [], _ => true
  | _ :: _, [] => false
  | a :: as, b :: bs => a == b && listStarts as bs

/-- `strStarts s pre = true` iff the string `s` starts with `pre`
(JavaScript `s.startsWith(pre)`). -/
def strStarts (s pre : String) : Bool := listStarts pre.data s.data

/-- Embedding of the readiness regular expression of
`firefox.ts` line 142: a line matches
`/^Juggler listening on (ws:\/\/.*)$/` iff it is the literal text
`Juggler listening on ` followed by a capture group that itself starts
with `ws://`; the capture group extends to the end of the line.  Returns
the capture group on a match. -/
def jugglerMatch (line : String) : Option String :=
  if listStarts "Juggler listening on ".data line.data then
    if listStarts "ws://".data (line.data.drop "Juggler listening on ".data.length) then
      some (String.mk (line.data.drop "Juggler listening on ".data.length))
    else none
  else none

/-- Modelled from the spec: `waitForLine` (from `processLauncher.ts`,
which is not part of this repository snapshot) consumes the process's
standard output line by line, tests each line against the fixed pattern,
and resolves with the captured group of the first matching line; if no
line ever matches it fails with a `TimeoutError` (represented here by
`none`). -/
def waitForLine : List String → Option String
  | [] => none
  | l :: ls =>
    match jugglerMatch l with
    | some e => some e
    | none => waitForLine ls

theorem listStarts_self_append (p q : List Char) : listStarts p (p ++ q) = true := by
  induction p with
  | nil => rfl
  | cons a as ih => simp [listStarts, ih]

theorem listStarts_eq_append {p l : List Char} (h : listStarts p l = true) :
    l = p ++ l.drop p.length := by
  induction p generalizing l with
  | nil => simp
  | cons a as ih =>
    cases l with
    | nil => simp [listStarts] at h
    | cons b bs =>
      simp only [listStarts, Bool.and_eq_true, beq_iff_eq] at h
      obtain ⟨rfl, h2⟩ := h
      simpa [List.cons_append] using ih h2

theorem string_mk_data (s : String) : String.mk s.data = s := rfl

theorem string_data_append (s t : String) : (s ++ t).data = s.data ++ t.data := by
  cases s; cases t; rfl

example : jugglerMatch "Juggler listening on ws://127.0.0.1:9222/abc" =
    some "ws://127.0.0.1:9222/abc" := by decide

example : jugglerMatch "Listening on ws://127.0.0.1:9222/abc" = none := by decide

example : waitForLine ["noise", "Juggler listening on ws://a"] = some "ws://a" := by decide

/-- Embedding of Node's `path.dirname` for slash-separated paths: the
text before the final slash (`"."` when there is no slash, `"/"` when
the only slash is leading), as used at `firefox.ts` line 117. -/
def dirname (p : String) : String :=
  match p.data.reverse.dropWhile (fun c => c != '/') with
  | [] => "."
  | _ :: rest => if rest.isEmpty then "/" else String.mk rest.reverse

example : dirname "/opt/ff/firefox" = "/opt/ff" := by decide

/-- JavaScript template-literal rendering of a possibly-`undefined`
environment value: `undefined` interpolates as the text `undefined`
(the `${process.env.LD_LIBRARY_PATH}` interpolation at line 117). -/
def jsTemplate : Option String → String
  | some s => s
  | none => "undefined"

/-- The `ignoreDefaultArgs` launch option: JavaScript `false`,
`true`, or an array of argument strings to filter out. -/
inductive IgnoreDefaultArgs where
  | no
  | yes
  | array (l : List String)
deriving DecidableEq

/-- The fields of `LaunchOptions` (plus the `BrowserArgOptions` fields
`devtools`, `headless`, `args`) that `_launchServer` and `_defaultArgs`
consult.  `env = none` stands for the JavaScript default
`env = process.env`; `headless = none` stands for the default
`headless = !devtools`.  Output/signal plumbing fields (`dumpio`,
`handleSIGINT/TERM/HUP`) are forwarded verbatim to `launchProcess` and
play no role in the claims, so they are not recorded here. -/
structure LaunchOptions where
  ignoreDefaultArgs : IgnoreDefaultArgs := .no
  args : List String := []
  executablePath : Option String := none
  env : Option (String → Option String) := none
  devtools : Bool := false
  headless : Option Bool := none
  timeout : Nat := 30000

/-- The connection type argument of `_launchServer`. -/
inductive LaunchType where
  | local
  | server
  | persistent
deriving DecidableEq

/-- The error conditions `_launchServer` can raise: the three
argument-validation throws of `_defaultArgs`, the missing-revision throw
of `_resolveExecutablePath`, and the readiness `TimeoutError`. -/
inductive LaunchError where
  | devtoolsNotSupported
  | profileArgError
  | jugglerArgError
  | revisionMissing
  | timedOut
deriving DecidableEq

/-- Ambient system state that `_launchServer` reads: the platform test
`os.platform() === 'linux'`, the host process environment `process.env`,
the fresh directory name produced by `mkdtempAsync`, the executable
resolved by `_resolveExecutablePath` (`none` when the revision is not
downloaded), and the lines the child later prints on standard output. -/
structure Sys where
  isLinux : Bool
  hostEnv : String → Option String
  tmpName : String
  browserExecutable : Option String
  stdoutLines : List String

/-- The payload handed to `launchProcess` (firefox.ts lines 111-139):
resolved executable, assembled argument list, merged environment, and
the temporary directory registered for deletion on teardown
(`tempDir: temporaryProfileDir || undefined`). -/
structure SpawnRecord where
  exe : String
  args : List String
  env : String → Option String
  tempDir : Option String

/-- The value `_launchServer` resolves with: the matched WebSocket
endpoint, the endpoint stored on the `BrowserServer`
(`connectionType === 'server' ? browserWSEndpoint : null`), and the
endpoint the returned `WebSocketTransport` is bound to
(`undefined` in server mode). -/
structure LaunchResult where
  wsEndpoint : String
  exposedEndpoint : Option String
  transportEndpoint : Option String
deriving DecidableEq

/-- Sequenced effects of one `_launchServer` run, in program order.
`populateCalled awaited` records the call to `populateProfile` at line
93 together with whether its returned promise is awaited before the run
continues (in the source it is not: the statement has no `await`). -/
inductive Ev where
  | tmpCreated
  | populateCalled (awaited : Bool)
  | spawn
  | readinessAwaited
  | serverCreated
deriving DecidableEq

/-- Outcome of one `_launchServer` run: its effect trace, the spawn
payload when `launchProcess` was reached, and the result. -/
structure LaunchOutcome where
  trace : List Ev
  spawned : Option SpawnRecord
  result : Except LaunchError LaunchResult

/-- Embedding of `Firefox._defaultArgs` (firefox.ts lines 165-192).
The JavaScript destructuring defaults `devtools = false`,
`headless = !devtools`, `args = []` are carried by the `LaunchOptions`
field defaults and by `options.headless.getD (!options.devtools)`. -/
def defaultArgs (options : LaunchOptions) (userDataDir : String) (port : Nat) :
    Except LaunchError (List String) :=
  if options.devtools then .error .devtoolsNotSupported
  else if options.args.any (fun a => strStarts a "-profile" || strStarts a "--profile") then
    .error .profileArgError
  else if options.args.any (fun a => strStarts a "-juggler") then .error .jugglerArgError
  else
    .ok (["-no-remote"]
      ++ (if options.headless.getD (!options.devtools) then ["-headless"]
          else ["-wait-for-browser"])
      ++ ["-profile", userDataDir, "-juggler", toString port]
      ++ options.args
      ++ (if options.args.all (fun a => strStarts a "-") then ["about:blank"] else []))

/-- Argument assembly of `_launchServer` (lines 95-100): the three-way
branch on `ignoreDefaultArgs`. -/
def assembleArgs (options : LaunchOptions) (userDataDir : String) (port : Nat) :
    Except LaunchError (List String) :=
  match options.ignoreDefaultArgs with
  | .no => defaultArgs options userDataDir port
  | .array l =>
    (defaultArgs options userDataDir port).map (fun fa => fa.filter (fun a => !(l.contains a)))
  | .yes => .ok options.args

/-- Executable resolution of `_launchServer` (lines 102-108): the
caller's `executablePath` wins; otherwise `_resolveExecutablePath`,
which throws its missing-revision text when the browser was not
downloaded. -/
def resolveExecutable (sys : Sys) (options : LaunchOptions) : Except LaunchError String :=
  match options.executablePath with
  | some p => .ok p
  | none =>
    match sys.browserExecutable with
    | some p => .ok p
    | none => .error .revisionMissing

/-- Environment merge of `_launchServer` (lines 114-118): on Linux the
caller's environment is spread and `LD_LIBRARY_PATH` is set to
`path.dirname(firefoxExecutable) + ':' + process.env.LD_LIBRARY_PATH`
(note: the host process's value, not the caller's); on other platforms
the caller's environment passes through unchanged. -/
def spawnEnvOf (sys : Sys) (options : LaunchOptions) (exe : String) :
    String → Option String :=
  let env := options.env.getD sys.hostEnv
  if sys.isLinux then
    fun k =>
      if k = "LD_LIBRARY_PATH" then
        some (dirname exe ++ ":" ++ jsTemplate (sys.hostEnv "LD_LIBRARY_PATH"))
      else env k
  else env

/-- Embedding of `Firefox._launchServer` (firefox.ts lines 73-146).
Program order: auto-create the profile directory when the caller gave
none (lines 88-92); call `populateProfile` without awaiting it (line
93); assemble arguments (95-100); resolve the executable (102-108);
call `launchProcess` with the merged environment and
`tempDir = temporaryProfileDir || undefined` (111-139); await the
readiness line (141-142); only then construct the `BrowserServer` and
the transport (144-145). -/
def launchServer (sys : Sys) (options : LaunchOptions) (connectionType : LaunchType)
    (userDataDir : Option String) (port : Option Nat) : LaunchOutcome :=
  let dir := userDataDir.getD sys.tmpName
  let temporaryProfileDir := if userDataDir.isNone then some sys.tmpName else none
  let ev1 := (if userDataDir.isNone then [Ev.tmpCreated] else []) ++ [Ev.populateCalled false]
  match assembleArgs options dir (port.getD 0) with
  | .error e => ⟨ev1, none, .error e⟩
  | .ok firefoxArguments =>
    match resolveExecutable sys options with
    | .error e => ⟨ev1, none, .error e⟩
    | .ok exe =>
      let sr : SpawnRecord := ⟨exe, firefoxArguments, spawnEnvOf sys options exe,
        temporaryProfileDir⟩
      match waitForLine sys.stdoutLines with
      | none => ⟨ev1 ++ [Ev.spawn, Ev.readinessAwaited], some sr, .error .timedOut⟩
      | some browserWSEndpoint =>
        ⟨ev1 ++ [Ev.spawn, Ev.readinessAwaited, Ev.serverCreated], some sr,
          .ok ⟨browserWSEndpoint,
            if connectionType = .server then some browserWSEndpoint else none,
            if connectionType = .server then none else some browserWSEndpoint⟩⟩

theorem jugglerMatch_some_iff (line u : String) :
    jugglerMatch line = some u ↔
      line = "Juggler listening on " ++ u ∧ strStarts u "ws://" = true := by
  constructor
  · intro h
    unfold jugglerMatch at h
    split at h
    · next hpre =>
      split at h
      · next hws =>
        have hu : u = String.mk (line.data.drop "Juggler listening on ".data.length) := by
          injection h with h'
          exact h'.symm
        have hline := listStarts_eq_append hpre
        refine ⟨?_, ?_⟩
        · have h0 : line = String.mk line.data := rfl
          rw [h0, hline, hu]
          rfl
        · rw [hu]; exact hws
      · exact absurd h (by simp)
    · exact absurd h (by simp)
  · rintro ⟨rfl, hws⟩
    unfold jugglerMatch
    have hdata : ("Juggler listening on " ++ u).data
        = "Juggler listening on ".data ++ u.data := string_data_append _ _
    rw [hdata, listStarts_self_append]
    simp only [if_true]
    rw [List.drop_left]
    have hws' : listStarts "ws://".data u.data = true := hws
    rw [hws']
    simp [string_mk_data]

/-- C1 (corrected): readiness is signaled solely by a standard-output
line of the fixed shape `Juggler listening on <endpoint-url>` — the
fixed text `Juggler listening on ` followed by an endpoint URL that must
itself start with `ws://` — not by a line `Listening on <endpoint-url>`
as the claim words it.  When such a line is produced, the readiness wait
resolves with an endpoint string exactly equal to the announced URL, and
no other output line triggers readiness. -/
theorem readiness_line_contract :
    (∀ u : String, strStarts u "ws://" = true →
        jugglerMatch ("Juggler listening on " ++ u) = some u)
    ∧ (∀ line u : String, jugglerMatch line = some u →
        line = "Juggler listening on " ++ u ∧ strStarts u "ws://" = true)
    ∧ (∀ (ls : List String) (e : String), waitForLine ls = some e →
        ∃ l, l ∈ ls ∧ jugglerMatch l = some e)
    ∧ (∀ ls : List String, (∀ l ∈ ls, jugglerMatch l = none) → waitForLine ls = none) := by
  refine ⟨?_, ?_, ?_, ?_⟩
  · intro u h
    exact (jugglerMatch_some_iff _ u).2 ⟨rfl, h⟩
  · intro line u h
    exact (jugglerMatch_some_iff line u).1 h
  · intro ls e h
    induction ls with
    | nil => simp [waitForLine] at h
    | cons l ls ih =>
      simp only [waitForLine] at h
      cases hm : jugglerMatch l with
      | some e' =>
        rw [hm] at h
        exact ⟨l, by simp, by rw [hm]; exact h⟩
      | none =>
        rw [hm] at h
        obtain ⟨l', hl', hm'⟩ := ih h
        exact ⟨l', by simp [hl'], hm'⟩
  · intro ls h
    induction ls with
    | nil => rfl
    | cons l ls ih =>
      simp only [waitForLine, h l (by simp)]
      exact ih (fun l' hl' => h l' (by simp [hl']))

/-- Witness for C1: the readiness line announcing
`ws://127.0.0.1:9222/abc` resolves with exactly that endpoint. -/
theorem readiness_line_contract_w :
    jugglerMatch ("Juggler listening on " ++ "ws://127.0.0.1:9222/abc")
      = some "ws://127.0.0.1:9222/abc" :=
  readiness_line_contract.1 "ws://127.0.0.1:9222/abc" (by decide)

/-- Counterexample for C1 as stated: the spec's example line
`Listening on ws://127.0.0.1:9222/abc` does not trigger readiness at
all — the code's pattern requires the prefix `Juggler listening on `. -/
theorem readiness_spec_line_not_matched :
    waitForLine ["Listening on ws://127.0.0.1:9222/abc"] = none
    ∧ jugglerMatch "Listening on ws://127.0.0.1:9222/abc" = none := by decide

theorem launchServer_args_error {options : LaunchOptions} {e : LaunchError}
    (sys : Sys) (ct : LaunchType) (ud : Option String) (port : Option Nat)
    (hA : assembleArgs options (ud.getD sys.tmpName) (port.getD 0) = .error e) :
    launchServer sys options ct ud port =
      ⟨(if ud.isNone then [Ev.tmpCreated] else []) ++ [Ev.populateCalled false],
        none, .error e⟩ := by
  simp [launchServer, hA]

theorem launchServer_exe_error {sys : Sys} {options : LaunchOptions}
    {fa : List String} {e : LaunchError}
    (ct : LaunchType) (ud : Option String) (port : Option Nat)
    (hA : assembleArgs options (ud.getD sys.tmpName) (port.getD 0) = .ok fa)
    (hE : resolveExecutable sys options = .error e) :
    launchServer sys options ct ud port =
      ⟨(if ud.isNone then [Ev.tmpCreated] else []) ++ [Ev.populateCalled false],
        none, .error e⟩ := by
  simp [launchServer, hA, hE]

theorem launchServer_timeout {sys : Sys} {options : LaunchOptions}
    {fa : List String} {exe : String}
    (ct : LaunchType) (ud : Option String) (port : Option Nat)
    (hA : assembleArgs options (ud.getD sys.tmpName) (port.getD 0) = .ok fa)
    (hE : resolveExecutable sys options = .ok exe)
    (hW : waitForLine sys.stdoutLines = none) :
    launchServer sys options ct ud port =
      ⟨(if ud.isNone then [Ev.tmpCreated] else [])
          ++ [Ev.populateCalled false, Ev.spawn, Ev.readinessAwaited],
        some ⟨exe, fa, spawnEnvOf sys options exe,
          if ud.isNone then some sys.tmpName else none⟩,
        .error .timedOut⟩ := by
  simp [launchServer, hA, hE, hW]

theorem launchServer_ok {sys : Sys} {options : LaunchOptions}
    {fa : List String} {exe : String} {ep : String}
    (ct : LaunchType) (ud : Option String) (port : Option Nat)
    (hA : assembleArgs options (ud.getD sys.tmpName) (port.getD 0) = .ok fa)
    (hE : resolveExecutable sys options = .ok exe)
    (hW : waitForLine sys.stdoutLines = some ep) :
    launchServer sys options ct ud port =
      ⟨(if ud.isNone then [Ev.tmpCreated] else [])
          ++ [Ev.populateCalled false, Ev.spawn, Ev.readinessAwaited, Ev.serverCreated],
        some ⟨exe, fa, spawnEnvOf sys options exe,
          if ud.isNone then some sys.tmpName else none⟩,
        .ok ⟨ep, if ct = .server then some ep else none,
          if ct = .server then none else some ep⟩⟩ := by
  simp [launchServer, hA, hE, hW]

/-- C2 (confirmed): the endpoint and transport returned by
`_launchServer` are constructed and exposed only after the readiness
line has been matched: a successful result carries exactly the endpoint
captured by the readiness scan, the `BrowserServer` construction is the
last event of the trace (after the readiness await), and when the scan
never matches, no server is ever created. -/
theorem launch_endpoint_after_readiness
    (sys : Sys) (options : LaunchOptions) (ct : LaunchType)
    (ud : Option String) (port : Option Nat) :
    (∀ r : LaunchResult, (launchServer sys options ct ud port).result = .ok r →
        waitForLine sys.stdoutLines = some r.wsEndpoint
        ∧ r.exposedEndpoint = (if ct = .server then some r.wsEndpoint else none)
        ∧ r.transportEndpoint = (if ct = .server then none else some r.wsEndpoint)
        ∧ (launchServer sys options ct ud port).trace
            = (if ud.isNone then [Ev.tmpCreated] else [])
              ++ [Ev.populateCalled false, Ev.spawn, Ev.readinessAwaited, Ev.serverCreated])
    ∧ ((launchServer sys options ct ud port).result.toOption = none →
        Ev.serverCreated ∉ (launchServer sys options ct ud port).trace) := by
  cases hA : assembleArgs options (ud.getD sys.tmpName) (port.getD 0) with
  | error e =>
    rw [launchServer_args_error sys ct ud port hA]
    constructor
    · intro r hr
      simp at hr
    · intro _
      cases ud <;> simp
  | ok fa =>
    cases hE : resolveExecutable sys options with
    | error e =>
      rw [launchServer_exe_error ct ud port hA hE]
      constructor
      · intro r hr
        simp at hr
      · intro _
        cases ud <;> simp
    | ok exe =>
      cases hW : waitForLine sys.stdoutLines with
      | none =>
        rw [launchServer_timeout ct ud port hA hE hW]
        constructor
        · intro r hr
          simp at hr
        · intro _
          cases ud <;> simp
      | some ep =>
        rw [launchServer_ok ct ud port hA hE hW]
        constructor
        · intro r hr
          simp only [Except.ok.injEq] at hr
          subst hr
          exact ⟨rfl, rfl, rfl, rfl⟩
        · intro habs
          simp [Except.toOption] at habs

/-- The system state used by the C2 witness: a process that prints a
diagnostic line and then the readiness announcement. -/
def readinessSys : Sys :=
  { isLinux := false
    hostEnv := fun _ => none
    tmpName := "/tmp/playwright_dev_firefox_profile-w2"
    browserExecutable := some "/opt/ff/firefox"
    stdoutLines := ["some diagnostic output", "Juggler listening on ws://127.0.0.1:9222/abc"] }

/-- The launch result produced in the C2 witness scenario. -/
def readinessResult : LaunchResult :=
  { wsEndpoint := "ws://127.0.0.1:9222/abc"
    exposedEndpoint := some "ws://127.0.0.1:9222/abc"
    transportEndpoint := none }

/-- Witness for C2 at a concrete server-mode launch. -/
theorem launch_endpoint_after_readiness_w :
    waitForLine readinessSys.stdoutLines = some readinessResult.wsEndpoint
    ∧ readinessResult.exposedEndpoint
        = (if LaunchType.server = LaunchType.server then some readinessResult.wsEndpoint
           else none)
    ∧ readinessResult.transportEndpoint
        = (if LaunchType.server = LaunchType.server then none
           else some readinessResult.wsEndpoint)
    ∧ (launchServer readinessSys {} LaunchType.server none none).trace
        = (if (none : Option String).isNone then [Ev.tmpCreated] else [])
          ++ [Ev.populateCalled false, Ev.spawn, Ev.readinessAwaited, Ev.serverCreated] :=
  (launch_endpoint_after_readiness readinessSys {} LaunchType.server none none).1
    readinessResult (by rfl)

theorem defaultArgs_invalid (options : LaunchOptions) (dir : String) (port : Nat)
    (hbad : options.devtools = true
      ∨ options.args.any (fun a => strStarts a "-profile" || strStarts a "--profile") = true
      ∨ options.args.any (fun a => strStarts a "-juggler") = true) :
    ∃ e, defaultArgs options dir port = .error e
      ∧ (e = .devtoolsNotSupported ∨ e = .profileArgError ∨ e = .jugglerArgError) := by
  unfold defaultArgs
  by_cases h1 : options.devtools = true
  · simp [h1]
  · rcases hbad with hb | hb | hb
    · exact absurd hb h1
    · simp [h1, hb]
    · by_cases h2 : options.args.any
          (fun a => strStarts a "-profile" || strStarts a "--profile") = true
      · simp [h1, h2]
      · simp [h1, h2, hb]

/-- C3 (amended): for every launch options value containing an invalid
argument combination — `devtools = true`, a passthrough argument
starting with `-profile` or `--profile`, or one starting with
`-juggler` — and whose `ignoreDefaultArgs` is not exactly `true`, the
launch fails with one of the three descriptive argument errors before
any process is spawned.  (When `ignoreDefaultArgs` is exactly `true`
the validations are skipped entirely; see the counterexample.) -/
theorem launch_rejects_invalid_args
    (sys : Sys) (options : LaunchOptions) (ct : LaunchType)
    (ud : Option String) (port : Option Nat)
    (hmode : options.ignoreDefaultArgs ≠ IgnoreDefaultArgs.yes)
    (hbad : options.devtools = true
      ∨ options.args.any (fun a => strStarts a "-profile" || strStarts a "--profile") = true
      ∨ options.args.any (fun a => strStarts a "-juggler") = true) :
    (∃ e, (launchServer sys options ct ud port).result = .error e
      ∧ (e = .devtoolsNotSupported ∨ e = .profileArgError ∨ e = .jugglerArgError))
    ∧ (launchServer sys options ct ud port).spawned = none
    ∧ Ev.spawn ∉ (launchServer sys options ct ud port).trace := by
  obtain ⟨e, he, htri⟩ := defaultArgs_invalid options (ud.getD sys.tmpName) (port.getD 0) hbad
  have hA : assembleArgs options (ud.getD sys.tmpName) (port.getD 0) = .error e := by
    cases hI : options.ignoreDefaultArgs with
    | no => simp [assembleArgs, hI, he]
    | yes => exact absurd hI hmode
    | array l =>
      simp only [assembleArgs, hI, he]
      rfl
  rw [launchServer_args_error sys ct ud port hA]
  refine ⟨⟨e, rfl, htri⟩, rfl, ?_⟩
  cases ud <;> simp

/-- The system state used by the C3 witness and counterexample. -/
def invalidArgsSys : Sys :=
  { isLinux := false
    hostEnv := fun _ => none
    tmpName := "/tmp/playwright_dev_firefox_profile-w1"
    browserExecutable := some "/opt/ff/firefox"
    stdoutLines := ["Juggler listening on ws://127.0.0.1:9222/abc"] }

/-- Witness for C3: a launch requesting devtools and passing both a
`-profile`-style and a `-juggler`-style argument is rejected before a
spawn. -/
theorem launch_rejects_invalid_args_w :
    (∃ e, (launchServer invalidArgsSys
        { devtools := true, args := ["-profile=/x", "-jugglerFoo"] }
        LaunchType.local none none).result = .error e
      ∧ (e = .devtoolsNotSupported ∨ e = .profileArgError ∨ e = .jugglerArgError))
    ∧ (launchServer invalidArgsSys
        { devtools := true, args := ["-profile=/x", "-jugglerFoo"] }
        LaunchType.local none none).spawned = none
    ∧ Ev.spawn ∉ (launchServer invalidArgsSys
        { devtools := true, args := ["-profile=/x", "-jugglerFoo"] }
        LaunchType.local none none).trace :=
  launch_rejects_invalid_args invalidArgsSys
    { devtools := true, args := ["-profile=/x", "-jugglerFoo"] }
    LaunchType.local none none (by decide) (by decide)

/-- Counterexample for C3 as stated: with `ignoreDefaultArgs` exactly
`true`, a launch whose options contain an invalid combination
(`devtools = true` and a `-profile`-style argument) is not rejected —
the process is spawned and the launch succeeds. -/
theorem launch_accepts_invalid_args_when_defaults_ignored :
    (launchServer invalidArgsSys
        { ignoreDefaultArgs := .yes, devtools := true, args := ["-profile=/x"] }
        LaunchType.local none none).result.toOption.isSome = true
    ∧ (launchServer invalidArgsSys
        { ignoreDefaultArgs := .yes, devtools := true, args := ["-profile=/x"] }
        LaunchType.local none none).spawned.isSome = true
    ∧ Ev.spawn ∈ (launchServer invalidArgsSys
        { ignoreDefaultArgs := .yes, devtools := true, args := ["-profile=/x"] }
        LaunchType.local none none).trace := by
  refine ⟨?_, ?_, ?_⟩ <;> decide

/-- C4 (confirmed): when `_defaultArgs` succeeds, the assembled list
ends with the blank starting destination `about:blank` exactly when
every passthrough argument is flag-like (starts with `-`), the empty
list included; when some passthrough argument is not flag-like, the
assembled list is exactly the fixed arguments followed by the
passthrough arguments, with no destination appended. -/
theorem defaultArgs_appends_about_blank
    (options : LaunchOptions) (dir : String) (port : Nat) (l : List String)
    (h : defaultArgs options dir port = .ok l) :
    (options.args.all (fun a => strStarts a "-") = true →
        l = ["-no-remote"]
          ++ (if options.headless.getD (!options.devtools) then ["-headless"]
              else ["-wait-for-browser"])
          ++ ["-profile", dir, "-juggler", toString port]
          ++ options.args ++ ["about:blank"]
        ∧ l.getLast? = some "about:blank")
    ∧ (options.args.all (fun a => strStarts a "-") = false →
        l = ["-no-remote"]
          ++ (if options.headless.getD (!options.devtools) then ["-headless"]
              else ["-wait-for-browser"])
          ++ ["-profile", dir, "-juggler", toString port]
          ++ options.args) := by
  unfold defaultArgs at h
  split at h
  · exact absurd h (by simp)
  · split at h
    · exact absurd h (by simp)
    · split at h
      · exact absurd h (by simp)
      · injection h with hl
        subst hl
        cases hC : options.args.all (fun a => strStarts a "-") with
        | false =>
          refine ⟨fun hall => absurd hall (by simp), fun _ => ?_⟩
          simp [hC]
        | true =>
          refine ⟨fun _ => ⟨by simp [hC], ?_⟩, fun hnot => absurd hnot (by simp)⟩
          simp only [hC, if_true]
          rw [List.getLast?_append_cons]
          rfl

/-- Witness for C4: with the single flag-like passthrough argument
`-foo`, the assembled list ends with `about:blank`. -/
theorem defaultArgs_appends_about_blank_w :
    (["-foo"] : List String).all (fun a => strStarts a "-") = true
    ∧ (["-no-remote", "-headless", "-profile", "/data/dir", "-juggler", "0",
        "-foo", "about:blank"] : List String).getLast? = some "about:blank" :=
  ⟨by decide,
    ((defaultArgs_appends_about_blank { args := ["-foo"] } "/data/dir" 0
      ["-no-remote", "-headless", "-profile", "/data/dir", "-juggler", "0",
        "-foo", "about:blank"] (by rfl)).1 (by decide)).2⟩

/-- C6 (amended): for every caller-supplied environment mapping, the
spawned process's environment equals the caller's mapping except for the
`LD_LIBRARY_PATH` entry on Linux: that entry is set to the executable's
own directory prepended (with a `:` separator) to the HOST process
environment's `LD_LIBRARY_PATH` value — not to the caller's value of
that variable, which is clobbered.  On non-Linux platforms the caller's
mapping passes through unchanged. -/
theorem launch_env_merge
    (sys : Sys) (options : LaunchOptions) (ct : LaunchType)
    (ud : Option String) (port : Option Nat) (sr : SpawnRecord)
    (h : (launchServer sys options ct ud port).spawned = some sr) :
    (sys.isLinux = true →
        (∀ k, k ≠ "LD_LIBRARY_PATH" → sr.env k = (options.env.getD sys.hostEnv) k)
        ∧ sr.env "LD_LIBRARY_PATH"
            = some (dirname sr.exe ++ ":" ++ jsTemplate (sys.hostEnv "LD_LIBRARY_PATH")))
    ∧ (sys.isLinux = false → ∀ k, sr.env k = (options.env.getD sys.hostEnv) k) := by
  have henv : sr.env = spawnEnvOf sys options sr.exe := by
    cases hA : assembleArgs options (ud.getD sys.tmpName) (port.getD 0) with
    | error e =>
      rw [launchServer_args_error sys ct ud port hA] at h
      exact absurd h (by simp)
    | ok fa =>
      cases hE : resolveExecutable sys options with
      | error e =>
        rw [launchServer_exe_error ct ud port hA hE] at h
        exact absurd h (by simp)
      | ok exe =>
        cases hW : waitForLine sys.stdoutLines with
        | none =>
          rw [launchServer_timeout ct ud port hA hE hW] at h
          simp only [Option.some.injEq] at h
          subst h
          rfl
        | some ep =>
          rw [launchServer_ok ct ud port hA hE hW] at h
          simp only [Option.some.injEq] at h
          subst h
          rfl
  rw [henv]
  unfold spawnEnvOf
  constructor
  · intro hlin
    rw [hlin]
    simp only [if_true]
    constructor
    · intro k hk
      simp [hk]
    · simp
  · intro hlin
    rw [hlin]
    intro k
    rfl

/-- The system state used for the C6 witness and counterexample: the
host process has `LD_LIBRARY_PATH=/host/lib` while the caller passes an
environment with `LD_LIBRARY_PATH=/caller/lib` and `FOO=bar`. -/
def envSys : Sys :=
  { isLinux := true
    hostEnv := fun k => if k = "LD_LIBRARY_PATH" then some "/host/lib" else none
    tmpName := "/tmp/playwright_dev_firefox_profile-w3"
    browserExecutable := some "/opt/ff/firefox"
    stdoutLines := ["Juggler listening on ws://127.0.0.1:9222/abc"] }

/-- The caller environment used for the C6 witness and counterexample. -/
def envOptions : LaunchOptions :=
  { env := some (fun k =>
      if k = "LD_LIBRARY_PATH" then some "/caller/lib"
      else if k = "FOO" then some "bar" else none) }

/-- The spawn record produced by the C6 scenario. -/
def envSr : SpawnRecord :=
  { exe := "/opt/ff/firefox"
    args := ["-no-remote", "-headless", "-profile",
      "/tmp/playwright_dev_firefox_profile-w3", "-juggler", "0", "about:blank"]
    env := spawnEnvOf envSys envOptions "/opt/ff/firefox"
    tempDir := some "/tmp/playwright_dev_firefox_profile-w3" }

/-- Witness for C6 (amended): at the concrete scenario the unrelated
variable `FOO` reaches the child unchanged and `LD_LIBRARY_PATH` is the
executable directory prepended to the host value. -/
theorem launch_env_merge_w :
    envSr.env "FOO" = (envOptions.env.getD envSys.hostEnv) "FOO"
    ∧ envSr.env "LD_LIBRARY_PATH"
        = some (dirname envSr.exe ++ ":" ++ jsTemplate (envSys.hostEnv "LD_LIBRARY_PATH")) :=
  ⟨((launch_env_merge envSys envOptions LaunchType.local none none envSr (by rfl)).1
      rfl).1 "FOO" (by decide),
    ((launch_env_merge envSys envOptions LaunchType.local none none envSr (by rfl)).1
      rfl).2⟩

/-- Counterexample for C6 as stated: the caller set
`LD_LIBRARY_PATH=/caller/lib`, so per the claim the child should see the
executable directory prepended to the caller's value,
`/opt/ff:/caller/lib`; the code instead produces `/opt/ff:/host/lib`,
prepending to the host process's value and discarding the caller's. -/
theorem launch_env_clobbers_caller_value :
    (launchServer envSys envOptions LaunchType.local none none).spawned.map
        (fun sr => sr.env "LD_LIBRARY_PATH") = some (some "/opt/ff:/host/lib")
    ∧ ¬ ((launchServer envSys envOptions LaunchType.local none none).spawned.map
        (fun sr => sr.env "LD_LIBRARY_PATH") = some (some "/opt/ff:/caller/lib")) := by
  refine ⟨?_, ?_⟩ <;> decide

/-- C8 (code bug): `_launchServer` calls `populateProfile(userDataDir!)`
at line 93 WITHOUT awaiting the returned promise, so the writes of
`user.js` and `prefs.js` are merely scheduled — not completed — when
`launchProcess` spawns the child at line 111.  The trace of a default
launch records the unawaited call (`populateCalled false`) before the
spawn, and no awaited profile population exists anywhere in the run. -/
theorem launch_spawns_without_awaiting_profile :
    (launchServer readinessSys {} LaunchType.local none none).trace
      = [Ev.tmpCreated, Ev.populateCalled false, Ev.spawn, Ev.readinessAwaited,
          Ev.serverCreated]
    ∧ Ev.populateCalled true
        ∉ (launchServer readinessSys {} LaunchType.local none none).trace := by
  refine ⟨?_, ?_⟩ <;> decide

/-- Events of the exit-notification protocol around one launched
process: the `BrowserServer` being assigned (firefox.ts line 144, after
the readiness line), a `close()` request, and the process exit. -/
inductive ProcEvent where
  | serverAssigned
  | closeRequested
  | processExit
deriving DecidableEq

/-- Number of `BrowserServer` Close events emitted along a run.
Modelled from the spec for the part outside this snapshot:
`launchProcess` (processLauncher.ts) invokes the `onkill` callback
exactly once, when the process exits, whatever caused the exit — so a
well-formed run carries exactly one `processExit` event, and repeated
`closeRequested` events add nothing.  The fold itself embeds the
in-source `onkill` handler (firefox.ts lines 135-138): it emits
`Events.BrowserServer.Close` only if `browserServer` is already
assigned, which the Boolean accumulator tracks. -/
def closeEmits : List ProcEvent → Bool → Nat
  | [], _ => 0
  | ProcEvent.serverAssigned :: es, _ => closeEmits es true
  | ProcEvent.closeRequested :: es, assigned => closeEmits es assigned
  | ProcEvent.processExit :: es, assigned =>
    (if assigned then 1 else 0) + closeEmits es assigned

theorem closeEmits_no_exit (es : List ProcEvent) (b : Bool)
    (h : es.count ProcEvent.processExit = 0) : closeEmits es b = 0 := by
  induction es generalizing b with
  | nil => rfl
  | cons e es ih =>
    cases e with
    | serverAssigned =>
      rw [closeEmits]
      exact ih true (by simpa [List.count_cons] using h)
    | closeRequested =>
      rw [closeEmits]
      exact ih b (by simpa [List.count_cons] using h)
    | processExit =>
      simp [List.count_cons] at h

theorem closeEmits_append_exit (pre post : List ProcEvent) (b : Bool)
    (hpre : pre.count ProcEvent.processExit = 0)
    (hpost : post.count ProcEvent.processExit = 0) :
    closeEmits (pre ++ ProcEvent.processExit :: post) b
      = if (b = true ∨ ProcEvent.serverAssigned ∈ pre) then 1 else 0 := by
  induction pre generalizing b with
  | nil =>
    simp only [List.nil_append, closeEmits]
    rw [closeEmits_no_exit post b hpost]
    cases b <;> simp
  | cons e pre ih =>
    cases e with
    | serverAssigned =>
      simp only [List.cons_append, closeEmits, List.append_eq]
      rw [ih true (by simpa [List.count_cons] using hpre)]
      simp
    | closeRequested =>
      simp only [List.cons_append, closeEmits, List.append_eq]
      rw [ih b (by simpa [List.count_cons] using hpre)]
      simp [List.mem_cons]
    | processExit =>
      simp [List.count_cons] at hpre

/-- C7 (amended): along any run with exactly one process exit — the
`launchProcess` contract modelled from the spec — the exit notification
is emitted exactly once if the `BrowserServer` was assigned before the
exit (no matter how many `close()` requests precede it), and zero times
if the process exited before the server handle existed; in particular it
never fires twice. -/
theorem exit_notification_count (pre post : List ProcEvent)
    (hpre : pre.count ProcEvent.processExit = 0)
    (hpost : post.count ProcEvent.processExit = 0) :
    closeEmits (pre ++ ProcEvent.processExit :: post) false
      = if ProcEvent.serverAssigned ∈ pre then 1 else 0 := by
  rw [closeEmits_append_exit pre post false hpre hpost]
  simp

/-- Witness for C7: a run where the server is assigned and `close()` is
called twice before the single process exit emits exactly one
notification. -/
theorem exit_notification_count_w :
    closeEmits [ProcEvent.serverAssigned, ProcEvent.closeRequested,
        ProcEvent.closeRequested, ProcEvent.processExit] false
      = if ProcEvent.serverAssigned ∈
          [ProcEvent.serverAssigned, ProcEvent.closeRequested,
            ProcEvent.closeRequested] then 1 else 0 :=
  exit_notification_count
    [ProcEvent.serverAssigned, ProcEvent.closeRequested, ProcEvent.closeRequested]
    [] (by decide) (by decide)

/-- Counterexample for C7 as stated: a run whose single process exit
happens before the `BrowserServer` is assigned (the child dies during
the readiness wait) produces zero exit notifications, although the claim
says a process exit at any point after launch produces one. -/
theorem exit_before_server_no_notification :
    ([ProcEvent.processExit] : List ProcEvent).count ProcEvent.processExit = 1
    ∧ closeEmits [ProcEvent.processExit] false = 0 := by
  refine ⟨?_, ?_⟩ <;> decide

/-- A value of the static `DEFAULT_PREFERENCES` table: the JavaScript
booleans, numbers and strings it contains. -/
inductive PrefValue where
  | b (v : Bool)
  | n (v : Int)
  | s (v : String)
deriving DecidableEq

/-- firefox.ts line 248. -/
def DUMMY_UMA_SERVER : String := "dummy.test"

/-- Lower-case hexadecimal digit, for JSON control-character escapes. -/
def hexDigit (n : Nat) : Char :=
  if n < 10 then Char.ofNat (48 + n) else Char.ofNat (87 + n)

/-- `JSON.stringify` escaping of one character of a string literal. -/
def jsonEscapeChar (c : Char) : String :=
  if c = '"' then "\\\""
  else if c = '\\' then "\\\\"
  else if c = '\n' then "\\n"
  else if c = '\r' then "\\r"
  else if c = '\t' then "\\t"
  else if c = '\x08' then "\\b"
  else if c = '\x0c' then "\\f"
  else if c.toNat < 32 then
    "\\u00" ++ String.mk [hexDigit (c.toNat / 16), hexDigit (c.toNat % 16)]
  else String.mk [c]

/-- `JSON.stringify` of a JavaScript string. -/
def jsonQuote (v : String) : String :=
  "\"" ++ String.join (v.data.map jsonEscapeChar) ++ "\""

/-- `JSON.stringify` of a preference value; the numbers of the table are
integers, which JavaScript prints without a decimal point. -/
def jsonOfPref : PrefValue → String
  | .b true => "true"
  | .b false => "false"
  | .n v => toString v
  | .s v => jsonQuote v

set_option maxHeartbeats 1000000 in
/-- Embedding of `DEFAULT_PREFERENCES` (firefox.ts lines 249-451), in
source order; `Object.entries` preserves the insertion order of these
string keys. -/
def DEFAULT_PREFERENCES : List (String × PrefValue) := [
  ("app.normandy.api_url", .s ""),
  ("app.update.checkInstallTime", .b false),
  ("app.update.disabledForTesting", .b true),
  ("apz.content_response_timeout", .n 60000),
  ("browser.contentblocking.features.standard",
    .s "-tp,tpPrivate,cookieBehavior0,-cm,-fp"),
  ("browser.dom.window.dump.enabled", .b true),
  ("browser.newtabpage.activity-stream.feeds.section.topstories", .b false),
  ("browser.newtabpage.enabled", .b false),
  ("browser.pagethumbnails.capturing_disabled", .b true),
  ("browser.safebrowsing.blockedURIs.enabled", .b false),
  ("browser.safebrowsing.downloads.enabled", .b false),
  ("browser.safebrowsing.malware.enabled", .b false),
  ("browser.safebrowsing.passwords.enabled", .b false),
  ("browser.safebrowsing.phishing.enabled", .b false),
  ("browser.search.update", .b false),
  ("browser.sessionstore.resume_from_crash", .b false),
  ("browser.shell.checkDefaultBrowser", .b false),
  ("browser.startup.homepage", .s "about:blank"),
  ("browser.startup.homepage_override.mstone", .s "ignore"),
  ("browser.startup.page", .n 0),
  ("browser.tabs.disableBackgroundZombification", .b false),
  ("browser.tabs.warnOnCloseOtherTabs", .b false),
  ("browser.tabs.warnOnOpen", .b false),
  ("browser.uitour.enabled", .b false),
  ("browser.urlbar.suggest.searches", .b false),
  ("browser.usedOnWindows10.introURL", .s ""),
  ("browser.warnOnQuit", .b false),
  ("datareporting.healthreport.about.reportUrl",
    .s ("http://" ++ DUMMY_UMA_SERVER ++ "/dummy/abouthealthreport/")),
  ("datareporting.healthreport.documentServerURI",
    .s ("http://" ++ DUMMY_UMA_SERVER ++ "/dummy/healthreport/")),
  ("datareporting.healthreport.logging.consoleEnabled", .b false),
  ("datareporting.healthreport.service.enabled", .b false),
  ("datareporting.healthreport.service.firstRun", .b false),
  ("datareporting.healthreport.uploadEnabled", .b false),
  ("datareporting.policy.dataSubmissionEnabled", .b false),
  ("datareporting.policy.dataSubmissionPolicyAccepted", .b false),
  ("datareporting.policy.dataSubmissionPolicyBypassNotification", .b true),
  ("devtools.jsonview.enabled", .b false),
  ("dom.disable_open_during_load", .b false),
  ("dom.file.createInChild", .b true),
  ("dom.ipc.reportProcessHangs", .b false),
  ("dom.max_chrome_script_run_time", .n 0),
  ("dom.max_script_run_time", .n 0),
  ("extensions.autoDisableScopes", .n 0),
  ("extensions.enabledScopes", .n 5),
  ("extensions.getAddons.cache.enabled", .b false),
  ("extensions.installDistroAddons", .b false),
  ("extensions.screenshots.disabled", .b true),
  ("extensions.update.enabled", .b false),
  ("extensions.update.notifyUser", .b false),
  ("extensions.webservice.discoverURL",
    .s ("http://" ++ DUMMY_UMA_SERVER ++ "/dummy/discoveryURL")),
  ("focusmanager.testmode", .b true),
  ("general.useragent.updates.enabled", .b false),
  ("geo.provider.testing", .b true),
  ("geo.wifi.scan", .b false),
  ("gfx.color_management.mode", .n 0),
  ("gfx.color_management.rendering_intent", .n 3),
  ("hangmonitor.timeout", .n 0),
  ("javascript.options.showInConsole", .b true),
  ("media.gmp-manager.updateEnabled", .b false),
  ("network.cookie.cookieBehavior", .n 0),
  ("network.http.prompt-temp-redirect", .b false),
  ("network.http.speculative-parallel-limit", .n 0),
  ("network.manage-offline-status", .b false),
  ("network.sntp.pools", .s DUMMY_UMA_SERVER),
  ("plugin.state.flash", .n 0),
  ("privacy.trackingprotection.enabled", .b false),
  ("remote.enabled", .b true),
  ("security.certerrors.mitm.priming.enabled", .b false),
  ("security.fileuri.strict_origin_policy", .b false),
  ("security.notification_enable_delay", .n 0),
  ("services.settings.server",
    .s ("http://" ++ DUMMY_UMA_SERVER ++ "/dummy/blocklist/")),
  ("browser.tabs.documentchannel", .b false),
  ("signon.autofillForms", .b false),
  ("signon.rememberSignons", .b false),
  ("startup.homepage_welcome_url", .s "about:blank"),
  ("startup.homepage_welcome_url.additional", .s ""),
  ("toolkit.cosmeticAnimations.enabled", .b false),
  ("toolkit.telemetry.server",
    .s ("https://" ++ DUMMY_UMA_SERVER ++ "/dummy/telemetry/")),
  ("toolkit.startup.max_resumed_crashes", .n (-1))]

/-- One statement of the generated `user.js`
(firefox.ts line 458). -/
def prefStatement (kv : String × PrefValue) : String :=
  "user_pref(" ++ jsonQuote kv.1 ++ ", " ++ jsonOfPref kv.2 ++ ");"

/-- JavaScript `Array.prototype.join` with separator `'\n'`, as used by
`userJS.join('\n')` / `prefsJS.join('\n')` at firefox.ts lines 460-461. -/
def joinNl : List String → String
  | [] => ""
  | [s] => s
  | s :: rest => s ++ "\n" ++ joinNl rest

/-- Embedding of `populateProfile` (firefox.ts lines 453-462) as the
list of (file path, file content) writes it performs, in order:
`user.js` with one `user_pref` statement per preference joined by
newlines, then an empty `prefs.js`. -/
def populateProfile (profilePath : String) : List (String × String) :=
  [(profilePath ++ "/user.js", joinNl (DEFAULT_PREFERENCES.map prefStatement)),
   (profilePath ++ "/prefs.js", joinNl [])]

/-- Splits a string at newline characters (the inverse of the
`userJS.join('\n')` serialization, used to state the one-statement-per-
line property). -/
def splitLinesAux : List Char → List Char → List String
  | [], acc => [String.mk acc.reverse]
  | c :: cs, acc =>
    if c = '\n' then String.mk acc.reverse :: splitLinesAux cs []
    else splitLinesAux cs (c :: acc)

def splitLines (s : String) : List String := splitLinesAux s.data []

theorem splitLinesAux_no_newline (cs : List Char) (acc : List Char)
    (h : ∀ c ∈ cs, c ≠ '\n') :
    splitLinesAux cs acc = [String.mk (acc.reverse ++ cs)] := by
  induction cs generalizing acc with
  | nil => simp [splitLinesAux]
  | cons c cs ih =>
    have hc : c ≠ '\n' := h c (by simp)
    simp only [splitLinesAux, if_neg hc]
    rw [ih (c :: acc) (fun c' hc' => h c' (by simp [hc']))]
    simp

theorem splitLinesAux_newline_append (a rest : List Char) (acc : List Char)
    (h : ∀ c ∈ a, c ≠ '\n') :
    splitLinesAux (a ++ '\n' :: rest) acc
      = String.mk (acc.reverse ++ a) :: splitLinesAux rest [] := by
  induction a generalizing acc with
  | nil => simp [splitLinesAux]
  | cons c a ih =>
    have hc : c ≠ '\n' := h c (by simp)
    simp only [List.cons_append, splitLinesAux, if_neg hc, List.append_eq]
    rw [ih (c :: acc) (fun c' hc' => h c' (by simp [hc']))]
    simp

theorem splitLines_joinNl (l : List String) (hne : l ≠ [])
    (h : ∀ s ∈ l, ∀ c ∈ s.data, c ≠ '\n') :
    splitLines (joinNl l) = l := by
  induction l with
  | nil => exact absurd rfl hne
  | cons s rest ih =>
    cases rest with
    | nil =>
      unfold splitLines joinNl
      rw [splitLinesAux_no_newline s.data [] (h s (by simp))]
      simp [string_mk_data]
    | cons s' rest' =>
      unfold splitLines joinNl
      have hnl : ("\n" : String).data = ['\n'] := rfl
      have hdata : (s ++ "\n" ++ joinNl (s' :: rest')).data
          = s.data ++ '\n' :: (joinNl (s' :: rest')).data := by
        rw [string_data_append, string_data_append, hnl]
        simp
      rw [hdata, splitLinesAux_newline_append s.data _ [] (h s (by simp))]
      simp only [List.reverse_nil, List.nil_append, string_mk_data]
      have hrec := ih (by simp) (fun t ht => h t (by simp [ht]))
      unfold splitLines at hrec
      rw [hrec]

/-- C5 (confirmed): `populateProfile` writes into the profile directory
a `user.js` whose lines are exactly one `user_pref(<json-key>,
<json-value>);` statement per preference of the static table, in table
order, with no duplicate keys, and writes an empty `prefs.js` alongside
it. -/
theorem populateProfile_contract (profilePath : String) :
    populateProfile profilePath
      = [(profilePath ++ "/user.js", joinNl (DEFAULT_PREFERENCES.map prefStatement)),
         (profilePath ++ "/prefs.js", "")]
    ∧ splitLines (joinNl (DEFAULT_PREFERENCES.map prefStatement))
        = DEFAULT_PREFERENCES.map prefStatement
    ∧ (DEFAULT_PREFERENCES.map Prod.fst).Nodup
    ∧ DEFAULT_PREFERENCES.all
        (fun kv => prefStatement kv
          = "user_pref(" ++ jsonQuote kv.1 ++ ", " ++ jsonOfPref kv.2 ++ ");") = true := by
  have hnonl : DEFAULT_PREFERENCES.all
      (fun kv => (prefStatement kv).data.all (fun c => c != '\n')) = true := by decide
  refine ⟨rfl, ?_, by decide, by decide⟩
  refine splitLines_joinNl _ ?_ ?_
  · rw [Ne, List.map_eq_nil_iff]
    decide
  · intro s hs c hc
    obtain ⟨kv, hkv, rfl⟩ := List.mem_map.1 hs
    have h1 := List.all_eq_true.1 hnonl kv hkv
    have h2 : ∀ x ∈ (prefStatement kv).data, ¬ x = '\n' := by simpa using h1
    exact h2 c hc

example : prefStatement ("toolkit.startup.max_resumed_crashes", .n (-1))
    = "user_pref(\"toolkit.startup.max_resumed_crashes\", -1);" := by decide

example : prefStatement ("browser.startup.homepage", .s "about:blank")
    = "user_pref(\"browser.startup.homepage\", \"about:blank\");" := by decide

example : prefStatement ("apz.content_response_timeout", .n 60000)
    = "user_pref(\"apz.content_response_timeout\", 60000);" := by decide

/-- Witness for C5 at a concrete profile path. -/
theorem populateProfile_contract_w :
    populateProfile "/tmp/profile"
      = [("/tmp/profile" ++ "/user.js",
          joinNl (DEFAULT_PREFERENCES.map prefStatement)),
         ("/tmp/profile" ++ "/prefs.js", "")]
    ∧ splitLines (joinNl (DEFAULT_PREFERENCES.map prefStatement))
        = DEFAULT_PREFERENCES.map prefStatement
    ∧ (DEFAULT_PREFERENCES.map Prod.fst).Nodup
    ∧ DEFAULT_PREFERENCES.all
        (fun kv => prefStatement kv
          = "user_pref(" ++ jsonQuote kv.1 ++ ", " ++ jsonOfPref kv.2 ++ ");") = true :=
  populateProfile_contract "/tmp/profile"

theorem launchServer_spawned
    (sys : Sys) (options : LaunchOptions) (ct : LaunchType)
    (ud : Option String) (port : Option Nat) (sr : SpawnRecord)
    (h : (launchServer sys options ct ud port).spawned = some sr) :
    ∃ fa exe,
      assembleArgs options (ud.getD sys.tmpName) (port.getD 0) = .ok fa
      ∧ resolveExecutable sys options = .ok exe
      ∧ sr = ⟨exe, fa, spawnEnvOf sys options exe,
          if ud.isNone then some sys.tmpName else none⟩ := by
  cases hA : assembleArgs options (ud.getD sys.tmpName) (port.getD 0) with
  | error e =>
    rw [launchServer_args_error sys ct ud port hA] at h
    exact absurd h (by simp)
  | ok fa =>
    cases hE : resolveExecutable sys options with
    | error e =>
      rw [launchServer_exe_error ct ud port hA hE] at h
      exact absurd h (by simp)
    | ok exe =>
      cases hW : waitForLine sys.stdoutLines with
      | none =>
        rw [launchServer_timeout ct ud port hA hE hW] at h
        simp only [Option.some.injEq] at h
        exact ⟨fa, exe, rfl, rfl, h.symm⟩
      | some ep =>
        rw [launchServer_ok ct ud port hA hE hW] at h
        simp only [Option.some.injEq] at h
        exact ⟨fa, exe, rfl, rfl, h.symm⟩

/-- C9 (confirmed): a profile directory is registered for deletion on
teardown (passed as `tempDir` to `launchProcess`) if and only if the
caller supplied no profile path — in which case it is exactly the
auto-created temporary directory; a caller-supplied profile directory is
never registered, including launches that fail after the spawn. -/
theorem launch_tempdir_registration
    (sys : Sys) (options : LaunchOptions) (ct : LaunchType)
    (ud : Option String) (port : Option Nat) (sr : SpawnRecord)
    (h : (launchServer sys options ct ud port).spawned = some sr) :
    sr.tempDir = if ud.isNone then some sys.tmpName else none := by
  obtain ⟨fa, exe, _, _, hsr⟩ := launchServer_spawned sys options ct ud port sr h
  rw [hsr]

/-- The system state of the C9 witness: a caller-supplied profile
directory and a child that never prints the readiness line, so the
launch fails partway (after the spawn). -/
def ownDirSys : Sys :=
  { isLinux := false
    hostEnv := fun _ => none
    tmpName := "/tmp/playwright_dev_firefox_profile-w4"
    browserExecutable := some "/opt/ff/firefox"
    stdoutLines := [] }

/-- The spawn record of the C9 witness scenario. -/
def ownDirSr : SpawnRecord :=
  { exe := "/opt/ff/firefox"
    args := ["-no-remote", "-headless", "-profile", "/home/user/profile",
      "-juggler", "0", "about:blank"]
    env := spawnEnvOf ownDirSys {} "/opt/ff/firefox"
    tempDir := none }

/-- Witness for C9: even though this launch fails partway (readiness
times out after the spawn), the caller-supplied profile directory is not
registered for deletion. -/
theorem launch_tempdir_registration_w :
    ownDirSr.tempDir
      = (if (some "/home/user/profile" : Option String).isNone
         then some ownDirSys.tmpName else none) :=
  launch_tempdir_registration ownDirSys {} LaunchType.persistent
    (some "/home/user/profile") none ownDirSr (by rfl)

theorem resolveExecutable_error (sys : Sys) (options : LaunchOptions) (e : LaunchError)
    (h : resolveExecutable sys options = .error e) : e = .revisionMissing := by
  unfold resolveExecutable at h
  cases hP : options.executablePath with
  | some p => rw [hP] at h; exact absurd h (by simp)
  | none =>
    rw [hP] at h
    cases hB : sys.browserExecutable with
    | some p => rw [hB] at h; exact absurd h (by simp)
    | none =>
      rw [hB] at h
      injection h with h
      exact h.symm

/-- C10 (confirmed): when `ignoreDefaultArgs` is exactly `true`, the
assembled argument list is exactly the caller's passthrough args with
nothing added, and none of the argument validations run — the launch can
only fail because the executable is missing or readiness times out,
never with a devtools/`-profile`/`-juggler` validation error. -/
theorem launch_ignore_default_args_passthrough
    (sys : Sys) (options : LaunchOptions) (ct : LaunchType)
    (ud : Option String) (port : Option Nat)
    (hmode : options.ignoreDefaultArgs = IgnoreDefaultArgs.yes) :
    (∀ sr : SpawnRecord, (launchServer sys options ct ud port).spawned = some sr →
        sr.args = options.args)
    ∧ (∀ e, (launchServer sys options ct ud port).result = .error e →
        e = .revisionMissing ∨ e = .timedOut) := by
  have hA : assembleArgs options (ud.getD sys.tmpName) (port.getD 0) = .ok options.args := by
    simp [assembleArgs, hmode]
  constructor
  · intro sr h
    obtain ⟨fa, exe, hA', _, hsr⟩ := launchServer_spawned sys options ct ud port sr h
    rw [hA'] at hA
    injection hA with hfa
    rw [hsr, hfa]
  · intro e he
    cases hE : resolveExecutable sys options with
    | error e' =>
      rw [launchServer_exe_error ct ud port hA hE] at he
      injection he with he
      exact Or.inl (he ▸ resolveExecutable_error sys options e' hE)
    | ok exe =>
      cases hW : waitForLine sys.stdoutLines with
      | none =>
        rw [launchServer_timeout ct ud port hA hE hW] at he
        injection he with he
        exact Or.inr he.symm
      | some ep =>
        rw [launchServer_ok ct ud port hA hE hW] at he
        exact absurd he (by simp)

/-- The options of the C10 witness: defaults bypassed entirely while the
passthrough args contain a normally-forbidden `-profile`-style argument
and devtools is requested. -/
def ignoreOptions : LaunchOptions :=
  { ignoreDefaultArgs := .yes, devtools := true, args := ["-profile=/x"] }

/-- The spawn record of the C10 witness scenario. -/
def ignoreSr : SpawnRecord :=
  { exe := "/opt/ff/firefox"
    args := ["-profile=/x"]
    env := spawnEnvOf invalidArgsSys ignoreOptions "/opt/ff/firefox"
    tempDir := some invalidArgsSys.tmpName }

/-- Witness for C10: the spawned argument list is exactly the caller's
passthrough list, even though it contains a `-profile`-style argument
and devtools was requested. -/
theorem launch_ignore_default_args_passthrough_w :
    ignoreSr.args = ignoreOptions.args :=
  (launch_ignore_default_args_passthrough invalidArgsSys ignoreOptions
    LaunchType.local none none rfl).1 ignoreSr (by rfl)
